import Mathlib

/-!
Verification development for the Agent Sentinel analysis pipeline.

Shallow embedding of the core of the repository: the data model
(`models.py`), the falsehood scorer, alert classifier and orchestration
pipeline (`agent_core.py`), the viral propagation model
(`viral_predictor.py`), the citation formatter (`citation_engine.py`), the
crisis scenarios (`config.py`, `crisis_simulator.py`) and the server state
with its endpoints (`main.py`).

Python floats are modelled as exact rationals; `math.exp` is an
uninterpreted parameter `pyexp` carried in an `Env` of runtime
nondeterminism (clock values, elapsed times, numeric string formatting),
so every theorem quantifies over it.  Raising oracles are modelled as
`Option` inputs (`none` = the oracle raised).
-/

namespace AgentSentinel

/-- Python `int(x)` on a float: truncation toward zero. -/
def pyTrunc (x : ℚ) : ℤ := if 0 ≤ x then ⌊x⌋ else ⌈x⌉

/-- Lower-casing of a string, character by character (Python `str.lower`). -/
def strLower (s : String) : String := String.mk (s.data.map Char.toLower)

/-- Does the character list start with the given needle? -/
def charsStartWith : List Char → List Char → Bool
  | [], _ => true
  | _ :: _, [] => false
  | c :: cs, d :: ds => c == d && charsStartWith cs ds

/-- Does the needle occur as a contiguous segment of the haystack?
(Python `needle in hay` on strings.) -/
def charsContain (needle : List Char) : List Char → Bool
  | [] => needle.isEmpty
  | d :: ds => charsStartWith needle (d :: ds) || charsContain needle ds

/-- Python `needle in hay` substring test. -/
def strContainsSub (hay needle : String) : Bool :=
  charsContain needle.data hay.data

/-- Python `str.split()`: split on whitespace runs, dropping empty pieces. -/
def pySplitWs (s : String) : List String :=
  (s.split (fun c => c.isWhitespace)).filter (fun w => w ≠ "")

/-- models.py `AlertLevel`. -/
inductive AlertLevel
  | LOW
  | MEDIUM
  | HIGH
  | CRITICAL
deriving DecidableEq, Repr

/-- The `.value` of the `AlertLevel` string enum. -/
def AlertLevel.value : AlertLevel → String
  | .LOW => "LOW"
  | .MEDIUM => "MEDIUM"
  | .HIGH => "HIGH"
  | .CRITICAL => "CRITICAL"

/-- models.py `NewsSource`. -/
structure NewsSource where
  url : String
  title : String
  domain : String
  is_trusted : Bool
  published_date : Option String := none
deriving DecidableEq, Repr

/-- models.py `VerificationResult`. -/
structure VerificationResult where
  is_verified : Bool
  confidence_score : ℚ
  sources : List NewsSource
  contradicting_sources : List NewsSource
  summary : String
  verification_time : ℚ
deriving DecidableEq, Repr

/-- The dict shape returned by `gdelt_monitor.check_event_coverage`
(the `articles` payload is never read by the core, so it is omitted). -/
structure GdeltCoverage where
  has_coverage : Bool
  total_articles : ℕ
  trusted_articles : ℕ
  coverage_ratio : ℚ
deriving DecidableEq, Repr

/-- models.py `ViralPrediction`. -/
structure ViralPrediction where
  will_go_viral : Bool
  probability : ℚ
  estimated_reach : ℤ
  time_to_viral : Option ℚ := none
  risk_factors : List String
deriving DecidableEq, Repr

/-- models.py `CounterNarrative`. -/
structure CounterNarrative where
  narrative : String
  citations : List String
  target_platforms : List String
  urgency : AlertLevel
deriving DecidableEq, Repr

/-- models.py `AgentAction` (the wall-clock timestamp field is dropped:
no core logic ever reads it). -/
structure AgentAction where
  action_type : String
  details : String
  status : String
deriving DecidableEq, Repr

/-- models.py `NewsAnalysis` (the `analyzed_at` wall-clock stamp is
dropped: no core logic ever reads it). -/
structure NewsAnalysis where
  news_id : String
  headline : String
  content : String
  source_url : Option String := none
  falsehood_score : ℚ
  alert_level : AlertLevel
  verification : VerificationResult
  viral_prediction : ViralPrediction
  actions_taken : List AgentAction
  counter_narrative : Option CounterNarrative := none
  processing_time : ℚ
  requires_approval : Bool := false
  approved_by : Option String := none
  deployed : Bool := false
deriving DecidableEq, Repr

/-- `max(0.0, min(1.0, x))` as used for final score clamping. -/
def clamp01 (x : ℚ) : ℚ := max 0 (min 1 x)

/-- agent_core.py `_calculate_falsehood_score`. -/
def calculateFalsehoodScore (verification : VerificationResult)
    (viral_prediction : ViralPrediction) (gdelt_coverage : GdeltCoverage) : ℚ :=
  let base_score : ℚ :=
    if verification.is_verified = true ∧ 0 < verification.sources.length then
      0.1 + (0.3 * (1.0 - verification.confidence_score))
    else if 0 < verification.contradicting_sources.length then
      0.7 + (0.2 * verification.confidence_score)
    else
      0.75
  let gdelt_factor : ℚ :=
    if gdelt_coverage.has_coverage = true then
      if gdelt_coverage.coverage_ratio > 0.7 then -0.15
      else if gdelt_coverage.coverage_ratio < 0.3 then 0.1
      else 0.0
    else
      match verification.sources with
      | [] => 0.0
      | s :: _ => if strContainsSub (strLower s.title) "breaking" = true then 0.2 else 0.0
  let viral_factor : ℚ := viral_prediction.probability * 0.15
  clamp01 (base_score + gdelt_factor + viral_factor)

/-- agent_core.py `_determine_alert_level`. -/
def determineAlertLevel (falsehood_score : ℚ) : AlertLevel :=
  if falsehood_score ≥ 0.9 then .CRITICAL
  else if falsehood_score ≥ 0.75 then .HIGH
  else if falsehood_score ≥ 0.5 then .MEDIUM
  else .LOW

/-- viral_predictor.py: the fixed high-emotion vocabulary. -/
def highEmotionWords : List String :=
  ["urgent", "breaking", "shocking", "alert", "warning",
   "crisis", "attack", "death", "riot", "emergency",
   "exclusive", "leaked", "revealed", "exposed"]

/-- viral_predictor.py `calculate_viral_probability`, parameterised by a
model `pyexp` of `math.exp`. -/
def calculateViralProbability (pyexp : ℚ → ℚ) (falsehood_score : ℚ)
    (current_reach : ℤ) (emotional_trigger_words : List String)
    (has_multimedia : Bool) (source_credibility : ℚ) : ViralPrediction :=
  let base_probability : ℚ := falsehood_score * 0.7
  let matchCount : ℕ :=
    (emotional_trigger_words.filter
      (fun w => highEmotionWords.contains (strLower w))).length
  let emotional_bonus : ℚ :=
    if emotional_trigger_words.isEmpty then 0.0
    else min 0.2 ((matchCount : ℚ) * 0.05)
  let multimedia_bonus : ℚ := if has_multimedia then 0.1 else 0.0
  let credibility_factor : ℚ := 1.0 - (source_credibility * 0.2)
  let total_probability : ℚ :=
    clamp01 ((base_probability + emotional_bonus + multimedia_bonus) * credibility_factor)
  let reach_time : ℤ × Option ℚ :=
    if total_probability > 0.7 then
      (max 10000 (pyTrunc ((current_reach : ℚ) * pyexp (total_probability * 5))), some 2.0)
    else if total_probability > 0.5 then
      (max 5000 (pyTrunc ((current_reach : ℚ) * pyexp (total_probability * 3))), some 6.0)
    else
      (pyTrunc ((current_reach : ℚ) * 1.5), none)
  let risk_factors : List String :=
    (if falsehood_score > 0.8 then ["High misinformation score"] else []) ++
    (if emotional_bonus > 0.1 then ["Strong emotional triggers detected"] else []) ++
    (if has_multimedia then ["Contains multimedia (faster spread)"] else []) ++
    (if source_credibility < 0.3 then ["Low-credibility source"] else [])
  { will_go_viral := decide (total_probability > 0.7)
    probability := total_probability
    estimated_reach := reach_time.1
    time_to_viral := reach_time.2
    risk_factors := risk_factors }

/-- citation_engine.py `generate_citations`. -/
def generateCitations (verification : VerificationResult) : List String :=
  (verification.sources.map (fun s => "✓ " ++ s.title ++ " - " ++ s.url)) ++
  (verification.contradicting_sources.map
    (fun s => "✗ Contradicted by: " ++ s.title ++ " - " ++ s.url))

/-- Runtime nondeterminism of one pipeline run: the wall clock read by
`time.time()` and `datetime.now()`, the elapsed wall time stamped on the
result, the `math.exp` model, and the numeric string formatters
(`.2%`, `.3f`, `.2f`) used only inside free-text log details. -/
structure Env where
  now : ℤ
  elapsed : ℚ
  pyexp : ℚ → ℚ
  fmtPct2 : ℚ → String
  fmtF3 : ℚ → String
  fmtF2 : ℚ → String

/-- The fallback `VerificationResult` substituted when the verification
oracle raises (agent_core.py, `except` branch of step 1). -/
def fallbackVerification : VerificationResult :=
  { is_verified := false
    confidence_score := 0.0
    sources := []
    contradicting_sources := []
    summary := "Verification failed"
    verification_time := 0.0 }

/-- The fallback coverage dict substituted when the GDELT oracle raises
(agent_core.py, `except` branch of step 2). -/
def fallbackCoverage : GdeltCoverage :=
  { has_coverage := false
    total_articles := 0
    trusted_articles := 0
    coverage_ratio := 0 }

/-- agent_core.py: the emotional-word list matched against the claim text
in step 3 of the pipeline. -/
def agentEmotionWords : List String :=
  ["urgent", "breaking", "shocking", "alert", "warning",
   "crisis", "attack", "death", "riot", "emergency"]

/-- agent_core.py step 3: tokenize `headline + " " + content` (lower-cased,
whitespace split) and keep the emotional words. -/
def emotionalWordsOf (headline content : String) : List String :=
  (pySplitWs (strLower (headline ++ " " ++ content))).filter
    (fun w => agentEmotionWords.contains w)

/-- agent_core.py `_generate_counter_narrative`. -/
def generateCounterNarrative (headline _content : String)
    (verification : VerificationResult) (alert_level : AlertLevel) :
    Option CounterNarrative :=
  if alert_level = .LOW ∨ alert_level = .MEDIUM then none
  else
    let narrative : String :=
      if 0 < verification.contradicting_sources.length then
        "OFFICIAL STATEMENT: The claim \x27" ++ headline ++
          "\x27 has been fact-checked and found to be FALSE.\n\n" ++
          "Verification: " ++ verification.summary ++ "\n\n"
      else
        "ADVISORY: The claim \x27" ++ headline ++
          "\x27 cannot be verified through trusted sources.\n\n"
    some { narrative := narrative
           citations := generateCitations verification
           target_platforms := ["Twitter/X", "Facebook", "WhatsApp"]
           urgency := alert_level }

/-- Python truthiness of the optional `news_id` argument: `None` and the
empty string both trigger the time-based default id. -/
def resolveNewsId (now : ℤ) : Option String → String
  | none => "news_" ++ toString now
  | some s => if s = "" then "news_" ++ toString now else s

/-- agent_core.py `analyze_news`: the full pipeline, parameterised by the
outcomes of the two oracle calls (`none` = the oracle raised). -/
def analyzeNews (env : Env) (verifResult : Option VerificationResult)
    (gdeltResult : Option GdeltCoverage) (headline content : String)
    (source_url : Option String) (enable_counter_narrative : Bool)
    (news_id : Option String) : NewsAnalysis :=
  let nid := resolveNewsId env.now news_id
  let log0 : List AgentAction :=
    [⟨"ANALYSIS_START", "Analyzing: " ++ headline.take 50 ++ "...", "IN_PROGRESS"⟩,
     ⟨"SEMANTIC_VERIFICATION", "Initiating verification...", "IN_PROGRESS"⟩]
  let verification := match verifResult with
    | some v => v
    | none => fallbackVerification
  let log1 : List AgentAction := match verifResult with
    | some v => log0 ++ [⟨"SEMANTIC_VERIFICATION", "Complete: " ++ v.summary, "COMPLETED"⟩]
    | none => log0
  let log2a := log1 ++ [⟨"GDELT_CHECK", "Querying GDELT...", "IN_PROGRESS"⟩]
  let gdelt_coverage := match gdeltResult with
    | some g => g
    | none => fallbackCoverage
  let log2 : List AgentAction := match gdeltResult with
    | some g => log2a ++
        [⟨"GDELT_CHECK", "Found " ++ toString g.total_articles ++ " articles", "COMPLETED"⟩]
    | none => log2a
  let log3a := log2 ++ [⟨"VIRAL_PREDICTION", "Analyzing viral potential...", "IN_PROGRESS"⟩]
  let viral_prediction :=
    calculateViralProbability env.pyexp 0.5 100 (emotionalWordsOf headline content)
      false (if verification.is_verified then 0.7 else 0.3)
  let log3 := log3a ++
    [⟨"VIRAL_PREDICTION", "Viral probability: " ++ env.fmtPct2 viral_prediction.probability,
      "COMPLETED"⟩]
  let log4a := log3 ++ [⟨"FALSEHOOD_SCORING", "Computing threat score...", "IN_PROGRESS"⟩]
  let falsehood_score := calculateFalsehoodScore verification viral_prediction gdelt_coverage
  let alert_level := determineAlertLevel falsehood_score
  let log4 := log4a ++
    [⟨"FALSEHOOD_SCORING",
      "Score: " ++ env.fmtF3 falsehood_score ++ " | Level: " ++ alert_level.value,
      "COMPLETED"⟩]
  let counter_narrative : Option CounterNarrative :=
    if enable_counter_narrative ∧ (alert_level = .HIGH ∨ alert_level = .CRITICAL) then
      generateCounterNarrative headline content verification alert_level
    else none
  let log5 :=
    if enable_counter_narrative ∧ (alert_level = .HIGH ∨ alert_level = .CRITICAL) then
      log4 ++ [⟨"COUNTER_NARRATIVE", "Generating response...", "IN_PROGRESS"⟩,
               ⟨"COUNTER_NARRATIVE", "Response prepared", "COMPLETED"⟩]
    else log4
  let requires_approval := alert_level = .HIGH ∨ alert_level = .CRITICAL
  let log6 := log5 ++
    [⟨"ANALYSIS_COMPLETE", "Processing time: " ++ env.fmtF2 env.elapsed ++ "s", "COMPLETED"⟩]
  { news_id := nid
    headline := headline
    content := content
    source_url := source_url
    falsehood_score := falsehood_score
    alert_level := alert_level
    verification := verification
    viral_prediction := viral_prediction
    actions_taken := log6
    counter_narrative := counter_narrative
    processing_time := env.elapsed
    requires_approval := requires_approval }

/-- config.py: one entry of `CRISIS_SCENARIOS` / the dict built by
`crisis_simulator.get_scenario` (the unused `sources` key is always `[]`). -/
structure Scenario where
  headline : String
  content : String
  true_falsehood_score : ℚ
  sources : List NewsSource := []
deriving DecidableEq, Repr

/-- config.py `CRISIS_SCENARIOS["cyberattack"]`. -/
def cyberattackScenario : Scenario :=
  { headline := "BREAKING: Major cyberattack shuts down Mumbai power grid"
    content := "Unverified reports claim nationwide infrastructure breach by foreign actors"
    true_falsehood_score := 0.95 }

/-- config.py `CRISIS_SCENARIOS` as a keyed lookup. -/
def crisisScenarios (name : String) : Option Scenario :=
  if name = "cyberattack" then some cyberattackScenario
  else if name = "riot" then some
    { headline := "URGENT: Violent riots erupt in South Mumbai, 50+ casualties"
      content := "Social media posts claim communal violence spreading across city"
      true_falsehood_score := 0.92 }
  else if name = "earthquake" then some
    { headline := "ALERT: 7.8 magnitude earthquake hits Mumbai, tsunami warning issued"
      content := "Multiple sources reporting major seismic activity"
      true_falsehood_score := 0.88 }
  else none

/-- Python truthiness of an optional string argument. -/
def optTruthy : Option String → Bool
  | none => false
  | some s => s ≠ ""

/-- crisis_simulator.py `get_scenario`. -/
def getScenario (scenario_name : String)
    (custom_headline custom_content : Option String) : Scenario :=
  if scenario_name = "custom" ∧ optTruthy custom_headline = true ∧
      optTruthy custom_content = true then
    { headline := custom_headline.getD ""
      content := custom_content.getD ""
      true_falsehood_score := 0.85 }
  else
    (crisisScenarios scenario_name).getD cyberattackScenario

/-- A FastAPI `HTTPException`: status code and detail string. -/
structure HTTPError where
  status_code : ℕ
  detail : String
deriving DecidableEq, Repr

/-- main.py module state: `analysis_history` and `active_alerts`
(the dict modelled as an insertion-ordered association list). -/
structure ServerState where
  analysis_history : List NewsAnalysis
  active_alerts : List (String × NewsAnalysis)
deriving DecidableEq, Repr

/-- Dict lookup `d[k]` / `k in d`. -/
def dictLookup (k : String) : List (String × NewsAnalysis) → Option NewsAnalysis
  | [] => none
  | (k2, v) :: rest => if k2 = k then some v else dictLookup k rest

/-- Dict assignment `d[k] = v`: overwrite in place, else append. -/
def dictSet (k : String) (v : NewsAnalysis) :
    List (String × NewsAnalysis) → List (String × NewsAnalysis)
  | [] => [(k, v)]
  | (k2, v2) :: rest =>
      if k2 = k then (k, v) :: rest else (k2, v2) :: dictSet k v rest

/-- Dict deletion `del d[k]`. -/
def dictDel (k : String) :
    List (String × NewsAnalysis) → List (String × NewsAnalysis)
  | [] => []
  | (k2, v2) :: rest =>
      if k2 = k then dictDel k rest else (k2, v2) :: dictDel k rest

/-- main.py `POST /analyze`: run the pipeline, append the result to the
history, and register HIGH/CRITICAL results as active alerts. -/
def analyzeEndpoint (env : Env) (verifResult : Option VerificationResult)
    (gdeltResult : Option GdeltCoverage) (headline content : String)
    (source_url : Option String) (enable_counter_narrative : Bool)
    (st : ServerState) : NewsAnalysis × ServerState :=
  let analysis := analyzeNews env verifResult gdeltResult headline content
    source_url enable_counter_narrative none
  let history := st.analysis_history ++ [analysis]
  let active :=
    if analysis.alert_level = .HIGH ∨ analysis.alert_level = .CRITICAL then
      dictSet analysis.news_id analysis st.active_alerts
    else st.active_alerts
  (analysis, ⟨history, active⟩)

/-- main.py `POST /simulate-crisis`: the target-platform list for crisis
alerts. -/
def crisisPlatforms : List String :=
  ["Twitter/X", "Facebook", "WhatsApp", "Telegram", "Official Website",
   "SMS Alert System", "Emergency Broadcast System", "Police Command Center",
   "NDMA Dashboard"]

/-- main.py `POST /simulate-crisis`, step 3: the force-generated crisis
counter-narrative for the overridden analysis. -/
def crisisCounterNarrative (scenario : Scenario)
    (verification : VerificationResult) (alert_level : AlertLevel) :
    CounterNarrative :=
  let narrative : String :=
    if 0 < verification.contradicting_sources.length then
      "🚨 OFFICIAL STATEMENT: The claim \x27" ++ scenario.headline ++
        "\x27 has been fact-checked and found to be FALSE.\n\n" ++
        "Verification: " ++ verification.summary ++ "\n\n" ++
        "Our analysis shows this information contradicts reports from trusted news sources. " ++
        "Please verify information from official channels before sharing.\n\n"
    else
      "⚠️ CRITICAL ADVISORY: The claim \x27" ++ scenario.headline ++
        "\x27 cannot be verified through trusted sources.\n\n" ++
        "We have detected NO legitimate news coverage of this alleged event in GDELT or trusted media outlets.\n\n" ++
        "This appears to be DISINFORMATION. Do NOT share.\n\n" ++
        "Stay informed through official government channels:\n" ++
        "- Mumbai Police: @MumbaiPolice\n" ++
        "- PIB India: @PIB_India\n" ++
        "- NDMA: @ndmaindia\n\n"
  let citations0 := generateCitations verification
  let citations :=
    if citations0.isEmpty then
      ["✓ Verified by Agent Sentinel Autonomous System",
       "✓ Cross-referenced with GDELT Global News Database (0 matching articles)",
       "✓ No coverage found in Reuters, BBC, AP, Times of India"]
    else citations0
  { narrative := narrative
    citations := citations
    target_platforms := crisisPlatforms
    urgency := alert_level }

/-- main.py `POST /simulate-crisis`: run the pipeline on the scenario
text, override score / tier / approval from the scenario, force-generate
the counter-narrative for HIGH/CRITICAL, then store the result in the
history and (unconditionally) in the active alerts. -/
def simulateCrisisEndpoint (env : Env) (verifResult : Option VerificationResult)
    (gdeltResult : Option GdeltCoverage) (scenario_name : String)
    (custom_headline custom_content : Option String) (st : ServerState) :
    NewsAnalysis × ServerState :=
  let scenario := getScenario scenario_name custom_headline custom_content
  let a0 := analyzeNews env verifResult gdeltResult scenario.headline
    scenario.content none false
    (some ("crisis_" ++ scenario_name ++ "_" ++ toString env.now))
  let a1 := { a0 with
    falsehood_score := scenario.true_falsehood_score
    alert_level := determineAlertLevel scenario.true_falsehood_score
    requires_approval := true }
  let a2 :=
    if a1.alert_level = .HIGH ∨ a1.alert_level = .CRITICAL then
      { a1 with
        counter_narrative :=
          some (crisisCounterNarrative scenario a1.verification a1.alert_level)
        actions_taken := a1.actions_taken ++
          [⟨"COUNTER_NARRATIVE",
            "CRITICAL: Response prepared for " ++
              toString crisisPlatforms.length ++ " platforms",
            "AWAITING_APPROVAL"⟩,
           ⟨"ALERT_PROTOCOL",
            "🚨 HUMAN APPROVAL REQUIRED - Crisis-level threat detected",
            "AWAITING_APPROVAL"⟩] }
    else a1
  (a2, ⟨st.analysis_history ++ [a2], dictSet a2.news_id a2 st.active_alerts⟩)

/-- The platform count reported by the approval log entry:
`len(alert.counter_narrative.target_platforms) if alert.counter_narrative else 0`. -/
def platformCount (alert : NewsAnalysis) : ℕ :=
  match alert.counter_narrative with
  | some cn => cn.target_platforms.length
  | none => 0

/-- The `ALERT_DEPLOYED` log entry appended by `POST /approve-alert`. -/
def deployedAction (approved_by : String) (alert : NewsAnalysis) : AgentAction :=
  ⟨"ALERT_DEPLOYED",
   "✅ Approved by " ++ approved_by ++ " - Deployed to " ++
     toString (platformCount alert) ++ " platforms",
   "COMPLETED"⟩

/-- The in-place mutation performed by `POST /approve-alert` on the found
alert object. -/
def approveUpdate (approved_by : String) (alert : NewsAnalysis) : NewsAnalysis :=
  { alert with
    approved_by := some approved_by
    deployed := true
    actions_taken := alert.actions_taken ++ [deployedAction approved_by alert] }

/-- main.py `POST /approve-alert/{news_id}`.  Returns the (possibly
unchanged) server state together with either the mutated alert record or
the 404 error. -/
def approveAlert (news_id approved_by : String) (st : ServerState) :
    ServerState × Except HTTPError NewsAnalysis :=
  match dictLookup news_id st.active_alerts with
  | none => (st, .error ⟨404, "Alert not found"⟩)
  | some alert =>
      let alert2 := approveUpdate approved_by alert
      ({ st with active_alerts := dictSet news_id alert2 st.active_alerts },
       .ok alert2)

/-- The `ALERT_REJECTED` log entry appended by `POST /reject-alert`. -/
def rejectedAction (rejected_by reason : String) : AgentAction :=
  ⟨"ALERT_REJECTED", "❌ Rejected by " ++ rejected_by ++ ": " ++ reason,
   "COMPLETED"⟩

/-- main.py `POST /reject-alert/{news_id}`: append the rejection entry to
the alert record and delete it from the active set.  Returns the state
together with either the mutated record or the 404 error. -/
def rejectAlert (news_id rejected_by reason : String) (st : ServerState) :
    ServerState × Except HTTPError NewsAnalysis :=
  match dictLookup news_id st.active_alerts with
  | none => (st, .error ⟨404, "Alert not found"⟩)
  | some alert =>
      let alert2 := { alert with
        actions_taken := alert.actions_taken ++ [rejectedAction rejected_by reason] }
      ({ st with active_alerts := dictDel news_id st.active_alerts }, .ok alert2)

/-- The sequential body of `process_batch` in main.py `POST /batch-analyze`:
one pipeline run per headline (content `""`, counter-narratives disabled),
with per-item environments and per-headline oracle outcomes. -/
def processBatch (envs : ℕ → Env) (vf : String → Option VerificationResult)
    (gf : String → Option GdeltCoverage) : ℕ → List String → List NewsAnalysis
  | _, [] => []
  | i, h :: rest =>
      analyzeNews (envs i) (vf h) (gf h) h "" none false none ::
        processBatch envs vf gf (i + 1) rest

/-- main.py `POST /batch-analyze`: reject batches over 100 headlines with
a 400 before any processing; otherwise append every produced analysis to
the history (the active-alert mapping is never touched). -/
def batchAnalyze (envs : ℕ → Env) (vf : String → Option VerificationResult)
    (gf : String → Option GdeltCoverage) (headlines : List String)
    (st : ServerState) : ServerState × Except HTTPError ℕ :=
  if headlines.length > 100 then
    (st, .error ⟨400, "Maximum 100 headlines per batch"⟩)
  else
    ({ st with analysis_history :=
        st.analysis_history ++ processBatch envs vf gf 0 headlines },
     .ok headlines.length)

/-! ## Spec-side definitions and concrete fixtures -/

/-- Spec-side rendering of the base score of §4.1: `0.1 + 0.3 × (1 −
confidence)` when verified with at least one supporting source, else
`0.7 + 0.2 × confidence` when at least one contradicting source, else
`0.75`. -/
def specBaseScore (v : VerificationResult) : ℚ :=
  if v.is_verified = true ∧ 1 ≤ v.sources.length then
    0.1 + (0.3 * (1.0 - v.confidence_score))
  else if 1 ≤ v.contradicting_sources.length then
    0.7 + (0.2 * v.confidence_score)
  else 0.75

/-- Does the first supporting source have a title containing the token
"breaking", case-insensitively? -/
def firstTitleHasBreaking (v : VerificationResult) : Bool :=
  match v.sources with
  | [] => false
  | s :: _ => strContainsSub (strLower s.title) "breaking"

/-- Spec-side rendering of the coverage adjustment of §4.1: −0.15 when
coverage exists with ratio > 0.7, +0.10 when coverage exists with ratio
< 0.3, +0.20 when no coverage exists and the first supporting source is
titled "breaking"-style, 0 otherwise. -/
def specCoverageAdjustment (v : VerificationResult) (g : GdeltCoverage) : ℚ :=
  if g.has_coverage = true ∧ g.coverage_ratio > 0.7 then -0.15
  else if g.has_coverage = true ∧ g.coverage_ratio < 0.3 then 0.1
  else if g.has_coverage = false ∧ firstTitleHasBreaking v = true then 0.2
  else 0

/-- A fixed concrete environment for witnesses: zero clock, zero elapsed
time, the zero model of `math.exp`, and empty formatters. -/
def env0 : Env :=
  { now := 0, elapsed := 0, pyexp := fun _ => 0,
    fmtPct2 := fun _ => "", fmtF3 := fun _ => "", fmtF2 := fun _ => "" }

/-- A concrete HIGH analysis record used to witness the lifecycle
transitions. -/
def sampleAlert : NewsAnalysis :=
  { news_id := "a1"
    headline := "h"
    content := "c"
    falsehood_score := 0.8
    alert_level := .HIGH
    verification := fallbackVerification
    viral_prediction :=
      { will_go_viral := false, probability := 0, estimated_reach := 0,
        risk_factors := [] }
    actions_taken := []
    processing_time := 0
    requires_approval := true }

/-- A concrete server state holding `sampleAlert` as an active alert. -/
def sampleState : ServerState :=
  { analysis_history := [sampleAlert], active_alerts := [("a1", sampleAlert)] }

/-- The analysis produced for the batch item "h" (empty content) with
both oracles failing, under `env0`. -/
def batchItemH : NewsAnalysis :=
  analyzeNews env0 none none "h" "" none false none

/-! ## Helper lemmas -/

theorem clamp01_nonneg (x : ℚ) : 0 ≤ clamp01 x := le_max_left 0 _

theorem clamp01_le_one (x : ℚ) : clamp01 x ≤ 1 := max_le (by norm_num) (min_le_left 1 x)

theorem clamp01_le (x c : ℚ) (hc : 0 ≤ c) (h : x ≤ c) : clamp01 x ≤ c :=
  max_le hc (le_trans (min_le_right 1 x) h)

/-! ## C1: the falsehood-score formula -/




theorem baseScore_eq (v : VerificationResult) :
    (if v.is_verified = true ∧ 0 < v.sources.length then
      (0.1 : ℚ) + (0.3 * (1.0 - v.confidence_score))
    else if 0 < v.contradicting_sources.length then
      0.7 + (0.2 * v.confidence_score)
    else 0.75) = specBaseScore v := by
  unfold specBaseScore
  have h1 : (0 < v.sources.length) = (1 ≤ v.sources.length) := by
    simp [Nat.lt_iff_add_one_le]
  have h2 : (0 < v.contradicting_sources.length) =
      (1 ≤ v.contradicting_sources.length) := by
    simp [Nat.lt_iff_add_one_le]
  simp only [h1, h2]

theorem covAdj_eq (v : VerificationResult) (g : GdeltCoverage) :
    (if g.has_coverage = true then
      if g.coverage_ratio > 0.7 then (-0.15 : ℚ)
      else if g.coverage_ratio < 0.3 then 0.1
      else 0.0
    else
      match v.sources with
      | [] => 0.0
      | s :: _ =>
          if strContainsSub (strLower s.title) "breaking" = true then 0.2
          else 0.0) = specCoverageAdjustment v g := by
  unfold specCoverageAdjustment firstTitleHasBreaking
  cases hb : g.has_coverage <;> cases hs : v.sources <;> try dsimp only
  all_goals split_ifs <;>
    first | rfl | (simp_all; done) | (norm_num; done) | tauto

/-- C1: for every VerificationOutcome, ViralAssessment and CoverageOutcome,
the Falsehood Scorer returns exactly
`clamp01 (base + coverage_adjustment + viral_probability * 0.15)` with the
base and adjustment defined as in the spec, and the clamp applied once as
the final step. -/
theorem claim_C1 (v : VerificationResult) (vp : ViralPrediction)
    (g : GdeltCoverage) :
    calculateFalsehoodScore v vp g =
      clamp01 (specBaseScore v + specCoverageAdjustment v g +
        vp.probability * 0.15) := by
  simp only [calculateFalsehoodScore]
  rw [baseScore_eq, covAdj_eq]

/-! ## C2: the alert-classifier bands -/

/-- C2: for every score in [0,1] the Alert Classifier returns LOW exactly
on [0,0.5), MEDIUM exactly on [0.5,0.75), HIGH exactly on [0.75,0.9) and
CRITICAL exactly on [0.9,1]; the four bands are therefore non-overlapping
and exhaustive over [0,1]. -/
theorem claim_C2 (s : ℚ) (h0 : 0 ≤ s) (h1 : s ≤ 1) :
    (determineAlertLevel s = .LOW ↔ 0 ≤ s ∧ s < 0.5) ∧
    (determineAlertLevel s = .MEDIUM ↔ 0.5 ≤ s ∧ s < 0.75) ∧
    (determineAlertLevel s = .HIGH ↔ 0.75 ≤ s ∧ s < 0.9) ∧
    (determineAlertLevel s = .CRITICAL ↔ 0.9 ≤ s ∧ s ≤ 1) := by
  unfold determineAlertLevel
  split_ifs with hA hB hC
  · exact ⟨⟨fun hh => absurd hh (by decide), fun hh => absurd hh.2 (by linarith)⟩,
      ⟨fun hh => absurd hh (by decide), fun hh => absurd hh.2 (by linarith)⟩,
      ⟨fun hh => absurd hh (by decide), fun hh => absurd hh.2 (by linarith)⟩,
      ⟨fun _ => ⟨by linarith, h1⟩, fun _ => rfl⟩⟩
  · exact ⟨⟨fun hh => absurd hh (by decide), fun hh => absurd hh.2 (by linarith)⟩,
      ⟨fun hh => absurd hh (by decide), fun hh => absurd hh.2 (by linarith)⟩,
      ⟨fun _ => ⟨by linarith, by linarith⟩, fun _ => rfl⟩,
      ⟨fun hh => absurd hh (by decide), fun hh => absurd hh.1 (by linarith)⟩⟩
  · exact ⟨⟨fun hh => absurd hh (by decide), fun hh => absurd hh.2 (by linarith)⟩,
      ⟨fun _ => ⟨by linarith, by linarith⟩, fun _ => rfl⟩,
      ⟨fun hh => absurd hh (by decide), fun hh => absurd hh.1 (by linarith)⟩,
      ⟨fun hh => absurd hh (by decide), fun hh => absurd hh.1 (by linarith)⟩⟩
  · exact ⟨⟨fun _ => ⟨h0, by linarith⟩, fun _ => rfl⟩,
      ⟨fun hh => absurd hh (by decide), fun hh => absurd hh.1 (by linarith)⟩,
      ⟨fun hh => absurd hh (by decide), fun hh => absurd hh.1 (by linarith)⟩,
      ⟨fun hh => absurd hh (by decide), fun hh => absurd hh.1 (by linarith)⟩⟩

/-- Witness for C2 at the concrete score 0.6 (a MEDIUM input). -/
theorem claim_C2_witness :
    (determineAlertLevel 0.6 = .LOW ↔ (0 : ℚ) ≤ 0.6 ∧ (0.6 : ℚ) < 0.5) ∧
    (determineAlertLevel 0.6 = .MEDIUM ↔ (0.5 : ℚ) ≤ 0.6 ∧ (0.6 : ℚ) < 0.75) ∧
    (determineAlertLevel 0.6 = .HIGH ↔ (0.75 : ℚ) ≤ 0.6 ∧ (0.6 : ℚ) < 0.9) ∧
    (determineAlertLevel 0.6 = .CRITICAL ↔ (0.9 : ℚ) ≤ 0.6 ∧ (0.6 : ℚ) ≤ 1) :=
  claim_C2 0.6 (by norm_num) (by norm_num)

/-! ## C9: viral-assessment invariants -/

theorem pyTrunc_nonneg (x : ℚ) (h : 0 ≤ x) : 0 ≤ pyTrunc x := by
  unfold pyTrunc
  rw [if_pos h]
  exact Int.le_floor.mpr (by exact_mod_cast h)

/-- C9: for every input (any falsehood score, non-negative current reach,
trigger-word list, multimedia flag, credibility in [0,1]) and every model
of `math.exp`, the returned ViralAssessment has probability in [0,1],
non-negative estimated reach, and will-go-viral exactly when
probability > 0.7. -/
theorem claim_C9 (pyexp : ℚ → ℚ) (falsehood_score : ℚ) (current_reach : ℤ)
    (emotional_trigger_words : List String) (has_multimedia : Bool)
    (source_credibility : ℚ) (hreach : 0 ≤ current_reach)
    (hc0 : 0 ≤ source_credibility) (hc1 : source_credibility ≤ 1) :
    0 ≤ (calculateViralProbability pyexp falsehood_score current_reach
      emotional_trigger_words has_multimedia source_credibility).probability ∧
    (calculateViralProbability pyexp falsehood_score current_reach
      emotional_trigger_words has_multimedia source_credibility).probability ≤ 1 ∧
    0 ≤ (calculateViralProbability pyexp falsehood_score current_reach
      emotional_trigger_words has_multimedia source_credibility).estimated_reach ∧
    ((calculateViralProbability pyexp falsehood_score current_reach
      emotional_trigger_words has_multimedia source_credibility).will_go_viral = true ↔
      (calculateViralProbability pyexp falsehood_score current_reach
        emotional_trigger_words has_multimedia source_credibility).probability > 0.7) := by
  simp only [calculateViralProbability]
  refine ⟨clamp01_nonneg _, clamp01_le_one _, ?_, ?_⟩
  · split_ifs <;> dsimp only <;>
      first
        | exact le_trans (by norm_num) (le_max_left _ _)
        | exact pyTrunc_nonneg _ (mul_nonneg (by exact_mod_cast hreach) (by norm_num))
  · simp

/-- Witness for C9 at a concrete input: score 0.9, reach 100, one trigger
word, multimedia, credibility 0.5, with the zero `math.exp` model. -/
theorem claim_C9_witness :
    0 ≤ (calculateViralProbability (fun _ => 0) 0.9 100
      ["urgent"] true 0.5).probability ∧
    (calculateViralProbability (fun _ => 0) 0.9 100
      ["urgent"] true 0.5).probability ≤ 1 ∧
    0 ≤ (calculateViralProbability (fun _ => 0) 0.9 100
      ["urgent"] true 0.5).estimated_reach ∧
    ((calculateViralProbability (fun _ => 0) 0.9 100
      ["urgent"] true 0.5).will_go_viral = true ↔
      (calculateViralProbability (fun _ => 0) 0.9 100
        ["urgent"] true 0.5).probability > 0.7) :=
  claim_C9 (fun _ => 0) 0.9 100 ["urgent"] true 0.5
    (by norm_num) (by norm_num) (by norm_num)

/-! ## C10: the orchestrated viral call is capped -/

/-- The will-go-viral flag is by construction the 0.7 comparison on the
reported probability. -/
theorem will_go_viral_eq (pyexp : ℚ → ℚ) (fs : ℚ) (cr : ℤ) (etw : List String)
    (hm : Bool) (sc : ℚ) :
    (calculateViralProbability pyexp fs cr etw hm sc).will_go_viral =
      decide ((calculateViralProbability pyexp fs cr etw hm sc).probability > 0.7) := rfl

/-- The time-to-viral field only depends on the reported probability:
2 hours above 0.7, 6 hours above 0.5, none otherwise. -/
theorem time_to_viral_eq (pyexp : ℚ → ℚ) (fs : ℚ) (cr : ℤ) (etw : List String)
    (hm : Bool) (sc : ℚ) :
    (calculateViralProbability pyexp fs cr etw hm sc).time_to_viral =
      (if (calculateViralProbability pyexp fs cr etw hm sc).probability > 0.7 then some 2.0
       else if (calculateViralProbability pyexp fs cr etw hm sc).probability > 0.5 then some 6.0
       else none) := by
  simp only [calculateViralProbability]
  split_ifs <;> rfl

/-- The probability reported by the viral predictor, invoked the way the
orchestrator invokes it (fixed placeholder score 0.5, reach 100, no
multimedia, credibility 0.7 or 0.3), is at most 0.517. -/
theorem orchProbBound (pyexp : ℚ → ℚ) (etw : List String) (sc : ℚ)
    (hsc : sc = 0.7 ∨ sc = 0.3) :
    (calculateViralProbability pyexp 0.5 100 etw false sc).probability ≤ 0.517 := by
  simp only [calculateViralProbability]
  have heb0 : (0 : ℚ) ≤ (if etw.isEmpty then (0.0 : ℚ)
      else min 0.2 (((etw.filter
        (fun w => highEmotionWords.contains (strLower w))).length : ℚ) * 0.05)) := by
    split_ifs
    · norm_num
    · exact le_min (by norm_num) (by positivity)
  have heb1 : (if etw.isEmpty then (0.0 : ℚ)
      else min 0.2 (((etw.filter
        (fun w => highEmotionWords.contains (strLower w))).length : ℚ) * 0.05)) ≤ 0.2 := by
    split_ifs
    · norm_num
    · exact min_le_left _ _
  have hcf0 : (0 : ℚ) ≤ 1.0 - sc * 0.2 := by
    rcases hsc with rfl | rfl <;> norm_num
  have hcf1 : (1.0 : ℚ) - sc * 0.2 ≤ 0.94 := by
    rcases hsc with rfl | rfl <;> norm_num
  refine clamp01_le _ _ (by norm_num) ?_
  have h1 : ((0.5 : ℚ) * 0.7 +
      (if etw.isEmpty then (0.0 : ℚ)
       else min 0.2 (((etw.filter
         (fun w => highEmotionWords.contains (strLower w))).length : ℚ) * 0.05)) +
      (if (false : Bool) then (0.1 : ℚ) else 0.0)) ≤ 0.55 := by
    simp only [Bool.false_eq_true, if_false]
    linarith
  calc _ ≤ (0.55 : ℚ) * 0.94 :=
        mul_le_mul h1 hcf1 hcf0 (by norm_num)
    _ = 0.517 := by norm_num

/-- The viral predictor, invoked the way the orchestrator invokes it,
never reports probability above 0.517, never predicts virality, and never
reaches the 2-hour top tier. -/
theorem orchestratedViralBound (pyexp : ℚ → ℚ) (etw : List String) (sc : ℚ)
    (hsc : sc = 0.7 ∨ sc = 0.3) :
    (calculateViralProbability pyexp 0.5 100 etw false sc).probability ≤ 0.517 ∧
    (calculateViralProbability pyexp 0.5 100 etw false sc).will_go_viral = false ∧
    (calculateViralProbability pyexp 0.5 100 etw false sc).time_to_viral ≠ some 2.0 := by
  have hp := orchProbBound pyexp etw sc hsc
  refine ⟨hp, ?_, ?_⟩
  · rw [will_go_viral_eq]
    simp only [decide_eq_false_iff_not, not_lt]
    linarith
  · rw [time_to_viral_eq]
    split_ifs with h1 h2
    · exact absurd h1 (by push_neg; linarith)
    · simp only [ne_eq, Option.some.injEq]
      norm_num
    · simp

/-- C10: every analysis produced by the orchestrator pipeline carries a
viral prediction whose probability is at most 0.517, whose will-go-viral
flag is false, and which never lands in the top (2-hour) reach tier. -/
theorem claim_C10 (env : Env) (vR : Option VerificationResult)
    (gR : Option GdeltCoverage) (headline content : String)
    (su : Option String) (ecn : Bool) (nid : Option String) :
    (analyzeNews env vR gR headline content su ecn nid).viral_prediction.probability ≤ 0.517 ∧
    (analyzeNews env vR gR headline content su ecn nid).viral_prediction.will_go_viral = false ∧
    (analyzeNews env vR gR headline content su ecn nid).viral_prediction.time_to_viral ≠
      some 2.0 := by
  have h := orchestratedViralBound env.pyexp (emotionalWordsOf headline content)
    (if (match vR with
      | some v => v
      | none => fallbackVerification).is_verified then 0.7 else 0.3)
    (by split_ifs <;> simp)
  simpa only [analyzeNews] using h

/-! ## C4: oracle failures degrade, never abort -/

/-- C4: when the verification oracle raises, the pipeline proceeds with
the fallback VerificationOutcome (unverified, confidence 0, empty source
lists, summary "Verification failed"); when the coverage oracle raises,
the run is indistinguishable — in every result field — from a run with
the empty no-coverage outcome; and every run completes with a tier
obtained by classifying its own falsehood score, so an oracle failure is
never propagated to the caller. -/
theorem claim_C4 (env : Env) (vR : Option VerificationResult)
    (gR : Option GdeltCoverage) (headline content : String)
    (su : Option String) (ecn : Bool) (nid : Option String) :
    ((analyzeNews env none gR headline content su ecn nid).verification =
      { is_verified := false, confidence_score := 0.0, sources := [],
        contradicting_sources := [], summary := "Verification failed",
        verification_time := 0.0 }) ∧
    ((analyzeNews env vR none headline content su ecn nid).falsehood_score =
      (analyzeNews env vR (some fallbackCoverage) headline content su ecn nid).falsehood_score) ∧
    ((analyzeNews env vR none headline content su ecn nid).alert_level =
      (analyzeNews env vR (some fallbackCoverage) headline content su ecn nid).alert_level) ∧
    ((analyzeNews env vR none headline content su ecn nid).verification =
      (analyzeNews env vR (some fallbackCoverage) headline content su ecn nid).verification) ∧
    ((analyzeNews env vR none headline content su ecn nid).viral_prediction =
      (analyzeNews env vR (some fallbackCoverage) headline content su ecn nid).viral_prediction) ∧
    ((analyzeNews env vR none headline content su ecn nid).counter_narrative =
      (analyzeNews env vR (some fallbackCoverage) headline content su ecn nid).counter_narrative) ∧
    ((analyzeNews env vR none headline content su ecn nid).requires_approval =
      (analyzeNews env vR (some fallbackCoverage) headline content su ecn nid).requires_approval) ∧
    ((analyzeNews env vR gR headline content su ecn nid).alert_level =
      determineAlertLevel (analyzeNews env vR gR headline content su ecn nid).falsehood_score) :=
  ⟨rfl, rfl, rfl, rfl, rfl, rfl, rfl, rfl⟩

/-! ## Association-list (Python dict) lemmas -/

theorem dictLookup_dictSet_self (k : String) (v : NewsAnalysis)
    (m : List (String × NewsAnalysis)) :
    dictLookup k (dictSet k v m) = some v := by
  induction m with
  | nil => simp [dictSet, dictLookup]
  | cons hd tl ih =>
      by_cases h : hd.1 = k
      · simp [dictSet, dictLookup, h]
      · simp only [dictSet]
        rw [if_neg (by exact h)]
        simp only [dictLookup]
        rw [if_neg (by exact h)]
        exact ih

theorem dictLookup_dictDel_self (k : String)
    (m : List (String × NewsAnalysis)) :
    dictLookup k (dictDel k m) = none := by
  induction m with
  | nil => simp [dictDel, dictLookup]
  | cons hd tl ih =>
      by_cases h : hd.1 = k
      · simp only [dictDel]
        rw [if_pos (by exact h)]
        exact ih
      · simp only [dictDel]
        rw [if_neg (by exact h)]
        simp only [dictLookup]
        rw [if_neg (by exact h)]
        exact ih

theorem dictLookup_dictDel_ne (k k2 : String)
    (m : List (String × NewsAnalysis)) (h : k2 ≠ k) :
    dictLookup k2 (dictDel k m) = dictLookup k2 m := by
  induction m with
  | nil => simp [dictDel]
  | cons hd tl ih =>
      by_cases hh : hd.1 = k
      · simp only [dictDel]
        rw [if_pos (by exact hh)]
        rw [ih]
        simp only [dictLookup]
        rw [if_neg (by rw [hh]; exact fun e => h e.symm)]
      · simp only [dictDel]
        rw [if_neg (by exact hh)]
        simp only [dictLookup]
        by_cases he : hd.1 = k2
        · rw [if_pos (by exact he), if_pos (by exact he)]
        · rw [if_neg (by exact he), if_neg (by exact he)]
          exact ih

/-! ## C5: the approve transition -/

/-- C5: approving fails with the 404 NotFound error and changes nothing
when the identifier is absent from the active set; when present — with no
precondition on whether it was already approved — it does not error, sets
approved-by to the approver, sets deployed, appends exactly one
ALERT_DEPLOYED entry naming the platform count of the attached counter
narrative, and leaves the (updated) record in the active set. -/
theorem claim_C5 (news_id approved_by : String) (st : ServerState) :
    (dictLookup news_id st.active_alerts = none →
      approveAlert news_id approved_by st =
        (st, .error ⟨404, "Alert not found"⟩)) ∧
    (∀ alert, dictLookup news_id st.active_alerts = some alert →
      (approveAlert news_id approved_by st).2 =
        .ok (approveUpdate approved_by alert) ∧
      (approveAlert news_id approved_by st).1.analysis_history =
        st.analysis_history ∧
      dictLookup news_id (approveAlert news_id approved_by st).1.active_alerts =
        some (approveUpdate approved_by alert) ∧
      (approveUpdate approved_by alert).approved_by = some approved_by ∧
      (approveUpdate approved_by alert).deployed = true ∧
      (approveUpdate approved_by alert).actions_taken =
        alert.actions_taken ++ [deployedAction approved_by alert]) := by
  constructor
  · intro h
    simp only [approveAlert, h]
  · intro alert h
    simp only [approveAlert, h]
    refine ⟨by trivial, by trivial, dictLookup_dictSet_self _ _ _,
      by trivial, by trivial, by trivial⟩



/-- Witness for C5: the NotFound case on the unknown id "zz" and the
successful case on the active id "a1". -/
theorem claim_C5_witness :
    (approveAlert "zz" "op" sampleState =
      (sampleState, .error ⟨404, "Alert not found"⟩)) ∧
    ((approveAlert "a1" "op" sampleState).2 =
      .ok (approveUpdate "op" sampleAlert)) :=
  ⟨(claim_C5 "zz" "op" sampleState).1 rfl,
   ((claim_C5 "a1" "op" sampleState).2 sampleAlert rfl).1⟩

/-! ## C6: the reject transition -/

/-- C6: rejecting fails with the 404 NotFound error when the identifier is
absent; when present, the outcome is the record with exactly one appended
ALERT_REJECTED entry, the record is removed from the active set, and the
history and every other active entry are unchanged. -/
theorem claim_C6 (news_id rejected_by reason : String) (st : ServerState) :
    (dictLookup news_id st.active_alerts = none →
      rejectAlert news_id rejected_by reason st =
        (st, .error ⟨404, "Alert not found"⟩)) ∧
    (∀ alert, dictLookup news_id st.active_alerts = some alert →
      (rejectAlert news_id rejected_by reason st).2 =
        .ok { alert with actions_taken :=
          alert.actions_taken ++ [rejectedAction rejected_by reason] } ∧
      (rejectAlert news_id rejected_by reason st).1.analysis_history =
        st.analysis_history ∧
      dictLookup news_id
        (rejectAlert news_id rejected_by reason st).1.active_alerts = none ∧
      (∀ k, k ≠ news_id →
        dictLookup k (rejectAlert news_id rejected_by reason st).1.active_alerts =
          dictLookup k st.active_alerts)) := by
  constructor
  · intro h
    simp only [rejectAlert, h]
  · intro alert h
    simp only [rejectAlert, h]
    refine ⟨by trivial, by trivial, dictLookup_dictDel_self _ _,
      fun k hk => dictLookup_dictDel_ne _ k _ hk⟩

/-- Witness for C6: the NotFound case on "zz" and the successful removal
of the active id "a1". -/
theorem claim_C6_witness :
    (rejectAlert "zz" "op" "dup" sampleState =
      (sampleState, .error ⟨404, "Alert not found"⟩)) ∧
    (dictLookup "a1"
      (rejectAlert "a1" "op" "dup" sampleState).1.active_alerts = none) :=
  ⟨(claim_C6 "zz" "op" "dup" sampleState).1 rfl,
   ((claim_C6 "a1" "op" "dup" sampleState).2 sampleAlert rfl).2.2.1⟩

/-! ## C8: the batch cap -/


/-- C8: a batch of more than 100 headlines is rejected wholesale with the
400 client error before any item is analyzed, leaving the whole server
state unchanged. -/
theorem claim_C8 (envs : ℕ → Env) (vf : String → Option VerificationResult)
    (gf : String → Option GdeltCoverage) (headlines : List String)
    (st : ServerState) (h : headlines.length > 100) :
    batchAnalyze envs vf gf headlines st =
      (st, .error ⟨400, "Maximum 100 headlines per batch"⟩) := by
  simp only [batchAnalyze]
  rw [if_pos h]

/-- Witness for C8: a batch of 101 identical headlines against the empty
state. -/
theorem claim_C8_witness :
    (List.replicate 101 "h").length > 100 ∧
    batchAnalyze (fun _ => env0) (fun _ => none) (fun _ => none)
      (List.replicate 101 "h") ⟨[], []⟩ =
      (⟨[], []⟩, .error ⟨400, "Maximum 100 headlines per batch"⟩) :=
  ⟨by norm_num, claim_C8 _ _ _ _ _ (by norm_num)⟩

/-! ## C7: the crisis-simulation override -/

/-- C7: the crisis simulation returns the scenario-declared true score,
reclassifies the tier from that overridden score, always requires
approval, and (when the overridden tier is HIGH or CRITICAL) attaches the
crisis counter-narrative generated against the overridden result. -/
theorem claim_C7 (env : Env) (vR : Option VerificationResult)
    (gR : Option GdeltCoverage) (scenario_name : String)
    (ch cc : Option String) (st : ServerState) :
    (simulateCrisisEndpoint env vR gR scenario_name ch cc st).1.falsehood_score =
      (getScenario scenario_name ch cc).true_falsehood_score ∧
    (simulateCrisisEndpoint env vR gR scenario_name ch cc st).1.alert_level =
      determineAlertLevel (getScenario scenario_name ch cc).true_falsehood_score ∧
    (simulateCrisisEndpoint env vR gR scenario_name ch cc st).1.requires_approval = true ∧
    (((simulateCrisisEndpoint env vR gR scenario_name ch cc st).1.alert_level = .HIGH ∨
      (simulateCrisisEndpoint env vR gR scenario_name ch cc st).1.alert_level = .CRITICAL) →
      (simulateCrisisEndpoint env vR gR scenario_name ch cc st).1.counter_narrative =
        some (crisisCounterNarrative (getScenario scenario_name ch cc)
          (simulateCrisisEndpoint env vR gR scenario_name ch cc st).1.verification
          (simulateCrisisEndpoint env vR gR scenario_name ch cc st).1.alert_level)) := by
  simp only [simulateCrisisEndpoint]
  split_ifs with hc
  · exact ⟨rfl, rfl, rfl, fun _ => rfl⟩
  · exact ⟨rfl, rfl, rfl, fun h => absurd h hc⟩

/-- Witness for C7: the built-in cyberattack scenario (true score 0.95,
hence CRITICAL) with both oracles failing, against the empty state. -/
theorem claim_C7_witness :
    (simulateCrisisEndpoint env0 none none "cyberattack" none none
      ⟨[], []⟩).1.counter_narrative =
      some (crisisCounterNarrative (getScenario "cyberattack" none none)
        (simulateCrisisEndpoint env0 none none "cyberattack" none none
          ⟨[], []⟩).1.verification
        (simulateCrisisEndpoint env0 none none "cyberattack" none none
          ⟨[], []⟩).1.alert_level) :=
  (claim_C7 env0 none none "cyberattack" none none ⟨[], []⟩).2.2.2
    (Or.inr (by
      rw [(claim_C7 env0 none none "cyberattack" none none ⟨[], []⟩).2.1]
      norm_num [getScenario, crisisScenarios, cyberattackScenario, optTruthy,
        determineAlertLevel]))

/-! ## C3: storage of results per entry point -/

theorem clamp01_eq_self (x : ℚ) (h0 : 0 ≤ x) (h1 : x ≤ 1) : clamp01 x = x := by
  unfold clamp01
  rw [min_eq_right h1, max_eq_right h0]

theorem viralProb_nonneg (pyexp : ℚ → ℚ) (fs : ℚ) (cr : ℤ) (etw : List String)
    (hm : Bool) (sc : ℚ) :
    0 ≤ (calculateViralProbability pyexp fs cr etw hm sc).probability := by
  simp only [calculateViralProbability]
  exact clamp01_nonneg _

/-- With the fallback verification and fallback coverage, the pipeline
score is `0.75 + p * 0.15`, which classifies as HIGH whenever the viral
probability `p` is in `[0, 0.517]`. -/
theorem fallbackScore_HIGH (vp : ViralPrediction) (h0 : 0 ≤ vp.probability)
    (h1 : vp.probability ≤ 0.517) :
    determineAlertLevel
      (calculateFalsehoodScore fallbackVerification vp fallbackCoverage) = .HIGH := by
  have hscore : calculateFalsehoodScore fallbackVerification vp fallbackCoverage =
      0.75 + 0.0 + vp.probability * 0.15 := by
    simp only [calculateFalsehoodScore, fallbackVerification, fallbackCoverage]
    norm_num
    exact clamp01_eq_self _ (by linarith) (by linarith)
  rw [hscore]
  unfold determineAlertLevel
  rw [if_neg (by push_neg; linarith), if_pos (by linarith)]


/-- The single-item batch run classifies "h" as HIGH. -/
theorem batchItemH_alert_HIGH : batchItemH.alert_level = .HIGH := by
  have hsc : (if fallbackVerification.is_verified then (0.7 : ℚ) else 0.3) = 0.7 ∨
      (if fallbackVerification.is_verified then (0.7 : ℚ) else 0.3) = 0.3 :=
    Or.inr rfl
  have hp1 := orchProbBound env0.pyexp (emotionalWordsOf "h" "") _ hsc
  have hp0 := viralProb_nonneg env0.pyexp 0.5 100 (emotionalWordsOf "h" "")
    false (if fallbackVerification.is_verified then (0.7 : ℚ) else 0.3)
  simp only [batchItemH, analyzeNews]
  exact fallbackScore_HIGH _ hp0 hp1

/-- Counterexample to C3 as stated: a batch submission of the single
headline "h" (with both oracles failing) produces a HIGH analysis that is
appended to the history but never added to the active-alert mapping. -/
theorem claim_C3_counterexample :
    (batchAnalyze (fun _ => env0) (fun _ => none) (fun _ => none) ["h"]
      ⟨[], []⟩).1.analysis_history = [batchItemH] ∧
    batchItemH.alert_level = .HIGH ∧
    (batchAnalyze (fun _ => env0) (fun _ => none) (fun _ => none) ["h"]
      ⟨[], []⟩).1.active_alerts = [] ∧
    dictLookup batchItemH.news_id
      (batchAnalyze (fun _ => env0) (fun _ => none) (fun _ => none) ["h"]
        ⟨[], []⟩).1.active_alerts = none :=
  ⟨rfl, batchItemH_alert_HIGH, rfl, rfl⟩

/-- C3 (amended): for a claim submitted through the single-submit or
crisis-simulation entry points, the resulting AnalysisResult is appended
to the history, and whenever its tier is HIGH or CRITICAL it is also
added to the active-alert mapping under its identifier; for a batch
submission each resulting AnalysisResult is appended to the history but
is never added to the active-alert mapping. -/
theorem claim_C3 (env : Env) (envs : ℕ → Env) (vR : Option VerificationResult)
    (gR : Option GdeltCoverage) (vf : String → Option VerificationResult)
    (gf : String → Option GdeltCoverage) (headline content : String)
    (su : Option String) (ecn : Bool) (scenario_name : String)
    (ch cc : Option String) (headlines : List String) (st : ServerState) :
    ((analyzeEndpoint env vR gR headline content su ecn st).2.analysis_history =
      st.analysis_history ++ [(analyzeEndpoint env vR gR headline content su ecn st).1]) ∧
    (((analyzeEndpoint env vR gR headline content su ecn st).1.alert_level = .HIGH ∨
      (analyzeEndpoint env vR gR headline content su ecn st).1.alert_level = .CRITICAL) →
      dictLookup (analyzeEndpoint env vR gR headline content su ecn st).1.news_id
        (analyzeEndpoint env vR gR headline content su ecn st).2.active_alerts =
        some (analyzeEndpoint env vR gR headline content su ecn st).1) ∧
    ((simulateCrisisEndpoint env vR gR scenario_name ch cc st).2.analysis_history =
      st.analysis_history ++ [(simulateCrisisEndpoint env vR gR scenario_name ch cc st).1]) ∧
    (((simulateCrisisEndpoint env vR gR scenario_name ch cc st).1.alert_level = .HIGH ∨
      (simulateCrisisEndpoint env vR gR scenario_name ch cc st).1.alert_level = .CRITICAL) →
      dictLookup (simulateCrisisEndpoint env vR gR scenario_name ch cc st).1.news_id
        (simulateCrisisEndpoint env vR gR scenario_name ch cc st).2.active_alerts =
        some (simulateCrisisEndpoint env vR gR scenario_name ch cc st).1) ∧
    (headlines.length ≤ 100 →
      (batchAnalyze envs vf gf headlines st).1.analysis_history =
        st.analysis_history ++ processBatch envs vf gf 0 headlines ∧
      (batchAnalyze envs vf gf headlines st).1.active_alerts = st.active_alerts) := by
  refine ⟨rfl, ?_, rfl, ?_, ?_⟩
  · intro h
    simp only [analyzeEndpoint] at h ⊢
    rw [if_pos h]
    exact dictLookup_dictSet_self _ _ _
  · intro _h
    simp only [simulateCrisisEndpoint]
    exact dictLookup_dictSet_self _ _ _
  · intro h
    simp only [batchAnalyze]
    rw [if_neg (by omega)]
    exact ⟨rfl, rfl⟩

/-- Witness for C3 (amended): the single submission of "h" (HIGH) is
registered as an active alert, and a one-item batch appends to history
while leaving the active set untouched. -/
theorem claim_C3_witness :
    (dictLookup (analyzeEndpoint env0 none none "h" "" none false
        ⟨[], []⟩).1.news_id
      (analyzeEndpoint env0 none none "h" "" none false ⟨[], []⟩).2.active_alerts =
      some (analyzeEndpoint env0 none none "h" "" none false ⟨[], []⟩).1) ∧
    ((batchAnalyze (fun _ => env0) (fun _ => none) (fun _ => none) ["h"]
        ⟨[], []⟩).1.analysis_history =
      [] ++ processBatch (fun _ => env0) (fun _ => none) (fun _ => none) 0 ["h"] ∧
     (batchAnalyze (fun _ => env0) (fun _ => none) (fun _ => none) ["h"]
        ⟨[], []⟩).1.active_alerts = []) :=
  ⟨(claim_C3 env0 (fun _ => env0) none none (fun _ => none) (fun _ => none)
      "h" "" none false "x" none none ["h"] ⟨[], []⟩).2.1
    (Or.inl batchItemH_alert_HIGH),
   (claim_C3 env0 (fun _ => env0) none none (fun _ => none) (fun _ => none)
      "h" "" none false "x" none none ["h"] ⟨[], []⟩).2.2.2.2 (by norm_num)⟩

end AgentSentinel
